import Mathlib

/-!
Shallow embedding of `src/disco.py` (the "disco" alert orchestration script).

Python floats are idealised as real numbers (the spec states its waveform
properties "exactly over the reals, within floating-point tolerance over
floats").  Python's `int()` conversion truncates toward zero, which we model
explicitly.  The asyncio loops are modelled as event traces: one tick of a
loop yields the list of the operations the loop body performs, in program
order, under the assumption that the gate is open throughout (so every
`event.wait()` returns immediately).
-/

open Real

namespace Disco

/-- Python `int()` applied to a real number: truncation toward zero
(floor for nonnegative arguments, ceiling for negative ones). -/
noncomputable def int_toward_zero (x : ℝ) : ℤ :=
  if 0 ≤ x then ⌊x⌋ else ⌈x⌉

/-- The waveform function `f` of `src/disco.py` lines 111-114:
`0.05 + sin(0.5*pi + 2*pi*v)` for the keyboard and
`0.05 + 0.95 * (0.5 + 0.45 * sin(2*pi*v))` for the screen. -/
noncomputable def f (v : ℝ) (for_keyboard : Bool) : ℝ :=
  if for_keyboard then 0.05 + Real.sin (0.5 * π + 2 * π * v)
  else 0.05 + 0.95 * (0.5 + 0.45 * Real.sin (2 * π * v))

/-- The screen waveform, `f` with `for_keyboard = False` (the default). -/
noncomputable def screenWave (t : ℝ) : ℝ := f t false

/-- The keyboard waveform, `f` with `for_keyboard = True`. -/
noncomputable def keyboardWave (t : ℝ) : ℝ := f t true

/-- The `ScreenBrightness.value` setter (line 108):
`self.current = int(v * self.maximal)`.  Returns the integer written to the
brightness file. -/
noncomputable def ScreenBrightness.set_value (maximal : ℤ) (v : ℝ) : ℤ :=
  int_toward_zero (v * maximal)

/-- The `DBusBrightnessManager.value` setter (line 70):
`self.current = int(v * self.maximum)`.  Returns the integer passed to the
DBus setter. -/
noncomputable def DBusBrightnessManager.set_value (maximum : ℤ) (v : ℝ) : ℤ :=
  int_toward_zero (v * maximum)

/-- The `toggle` function of lines 175-179: clear the event if it is set,
set it otherwise.  The event state is a boolean, `true` = open/set. -/
def toggle (event : Bool) : Bool :=
  if event then false else true

/-- An operation performed by one tick of a screen/keyboard alert loop. -/
inductive Ev
  | clockRead (t : ℝ)
  | gateWait
  | applyValue (n : ℤ)
  | sleep (d : ℝ)

/-- The kind of an operation, forgetting its payload. -/
inductive EvKind
  | clockRead
  | gateWait
  | applyValue
  | sleep
deriving DecidableEq

/-- Forget the payload of an operation. -/
def Ev.kind : Ev → EvKind
  | .clockRead _ => .clockRead
  | .gateWait => .gateWait
  | .applyValue _ => .applyValue
  | .sleep _ => .sleep

/-- Tick `i` of `screen_alert` (lines 154-159), with the gate open.  Because
the loop is `for v in map(f, itertime())`, advancing the iterator reads the
monotonic clock and computes `v = f(t)` before the body runs
`await event.wait()`; the body then applies the value via the
`ScreenBrightness.value` setter and sleeps `1/60`.  `clock i` is the
monotonic-clock value sampled for tick `i`. -/
noncomputable def screen_tick (clock : ℕ → ℝ) (maximal : ℤ) (i : ℕ) : List Ev :=
  [Ev.clockRead (clock i), Ev.gateWait,
   Ev.applyValue (ScreenBrightness.set_value maximal (f (clock i) false)),
   Ev.sleep (1 / 60)]

/-- Tick `i` of `keyboard_alert` (lines 146-151), with the gate open: same
shape as `screen_tick` but with `for_keyboard=True` and the DBus setter. -/
noncomputable def keyboard_tick (clock : ℕ → ℝ) (maximum : ℤ) (i : ℕ) : List Ev :=
  [Ev.clockRead (clock i), Ev.gateWait,
   Ev.applyValue (DBusBrightnessManager.set_value maximum (f (clock i) true)),
   Ev.sleep (1 / 60)]

/-- The event trace of `screen_alert` run for `N` ticks with the gate open. -/
noncomputable def screen_alert (clock : ℕ → ℝ) (maximal : ℤ) : ℕ → List Ev
  | 0 => []
  | n + 1 => screen_alert clock maximal n ++ screen_tick clock maximal n

/-- The event trace of `keyboard_alert` run for `N` ticks with the gate open. -/
noncomputable def keyboard_alert (clock : ℕ → ℝ) (maximum : ℤ) : ℕ → List Ev
  | 0 => []
  | n + 1 => keyboard_alert clock maximum n ++ keyboard_tick clock maximum n

/-- The arguments of the brightness setter calls occurring in a trace, in
order. -/
def setCalls (tr : List Ev) : List ℤ :=
  tr.filterMap fun e => match e with | .applyValue n => some n | _ => none

/-- The ordering property claimed by the spec for one tick: every gate wait
occurs strictly before every clock read. -/
def waitBeforeSample (l : List EvKind) : Prop :=
  ∀ i j : ℕ, l.get? i = some EvKind.gateWait → l.get? j = some EvKind.clockRead →
    i < j

/-- An operation performed by `audio_alert` (lines 162-172). -/
inductive AudioEv
  | uploadSample
  | readHeader
  | gateWait
  | play
  | sleep (d : ℚ)
deriving DecidableEq

/-- The cycle duration computed once at audio-loop startup (line 168):
`delay = info.nframes / info.framerate`, from the wave-file header. -/
def audio_delay (nframes framerate : ℕ) : ℚ :=
  (nframes : ℚ) / (framerate : ℚ)

/-- The event trace of `audio_alert` run for `N` iterations of its
`while True` cycle with the gate open: upload the sample and read the header
once, then on every iteration wait for the gate, play, and sleep for the
`delay` computed at startup (the same value on every iteration — it is never
recomputed). -/
def audio_alert (nframes framerate : ℕ) : ℕ → List AudioEv
  | 0 => [AudioEv.uploadSample, AudioEv.readHeader]
  | n + 1 => audio_alert nframes framerate n ++
      [AudioEv.gateWait, AudioEv.play, AudioEv.sleep (audio_delay nframes framerate)]

/-- Timed model of the audio cycle: `audio_play_time delay waits n` is the
instant of the `n`-th `play` call, where `waits n ≥ 0` is the time spent
blocked on `event.wait()` (plus scheduling) before play `n`, and between two
plays the loop additionally sleeps for `delay` (asyncio.sleep never wakes
early). -/
def audio_play_time (delay : ℚ) (waits : ℕ → ℚ) : ℕ → ℚ
  | 0 => waits 0
  | n + 1 => audio_play_time delay waits n + delay + waits (n + 1)

/-- A loop of `asyncio.gather` in `main` (line 191) terminates either by
cancellation (the SIGINT shutdown trigger cancelling the main task) or by an
uncaught fatal error, identified abstractly by a code. -/
inductive LoopTermination
  | cancelledError
  | fatal (err : ℕ)

/-- The process exit status produced by `main`'s `try/except` (lines
190-193) together with Python runtime semantics: `asyncio.CancelledError` is
caught and `exit()` is called, which raises `SystemExit(None)` and
terminates the process with status 0; any other exception propagates out of
`asyncio.run`, and the interpreter terminates the process with status 1. -/
def main_exit_status : LoopTermination → ℕ
  | .cancelledError => 0
  | .fatal _ => 1

/-- The statements of `main` (lines 182-191) in program order. -/
inductive MainStep
  | createEvent
  | setEvent
  | getLoop
  | currentTask
  | addToggleHandler
  | addCancelHandler
  | gatherLoops
deriving DecidableEq

/-- The body of `main` as a list of steps, in source order: the event is
created and set before the signal handlers are installed and before
`asyncio.gather` starts the three alert loops. -/
def main_steps : List MainStep :=
  [MainStep.createEvent, MainStep.setEvent, MainStep.getLoop,
   MainStep.currentTask, MainStep.addToggleHandler, MainStep.addCancelHandler,
   MainStep.gatherLoops]

/-- The effect of one step of `main` on the gate state: `asyncio.Event()`
starts in the cleared (closed) state, `event.set()` opens it, and no other
setup step touches it. -/
def stepGate (g : Bool) : MainStep → Bool
  | .createEvent => false
  | .setEvent => true
  | _ => g

/-- The gate state after executing a list of `main` steps. -/
def gateAfter (steps : List MainStep) : Bool :=
  steps.foldl stepGate false

end Disco

/-- Helper: the keyboard waveform at `t = 0.5` equals `-0.95` exactly. -/
theorem Disco.keyboardWave_half : Disco.keyboardWave 0.5 = -0.95 := by
  simp only [Disco.keyboardWave, Disco.f, if_true]
  rw [show (0.5 : ℝ) * π + 2 * π * 0.5 = π / 2 + π by ring, Real.sin_add_pi,
    Real.sin_pi_div_two]
  norm_num

/-- C3: for every real `t`, `screenWave t = 0.05 + 0.95 * (0.5 + 0.45 * sin(2*pi*t))`
lies in the closed interval `[0.05, 1.0]`. -/
theorem Disco.screenWave_range (t : ℝ) :
    0.05 ≤ Disco.screenWave t ∧ Disco.screenWave t ≤ 1.0 := by
  have h1 := Real.neg_one_le_sin (2 * π * t)
  have h2 := Real.sin_le_one (2 * π * t)
  simp only [Disco.screenWave, Disco.f, Bool.false_eq_true, if_false]
  norm_num
  constructor <;> nlinarith

/-- C4: both waveforms have period 1: for every real `t`,
`screenWave (t+1) = screenWave t` and `keyboardWave (t+1) = keyboardWave t`. -/
theorem Disco.waves_periodic (t : ℝ) :
    Disco.screenWave (t + 1) = Disco.screenWave t ∧
    Disco.keyboardWave (t + 1) = Disco.keyboardWave t := by
  constructor
  · simp only [Disco.screenWave, Disco.f, Bool.false_eq_true, if_false]
    rw [show 2 * π * (t + 1) = 2 * π * t + 2 * π by ring, Real.sin_add_two_pi]
  · simp only [Disco.keyboardWave, Disco.f, if_true]
    rw [show 0.5 * π + 2 * π * (t + 1) = (0.5 * π + 2 * π * t) + 2 * π by ring,
      Real.sin_add_two_pi]

/-- C5: the keyboard waveform satisfies `keyboardWave 0 = 1.05` and
`keyboardWave 0.5 = -0.95`; for every `t` its value lies in `[-0.95, 1.05]`;
and it takes negative values for some `t`. -/
theorem Disco.keyboardWave_props :
    Disco.keyboardWave 0 = 1.05 ∧ Disco.keyboardWave 0.5 = -0.95 ∧
    (∀ t : ℝ, -0.95 ≤ Disco.keyboardWave t ∧ Disco.keyboardWave t ≤ 1.05) ∧
    (∃ t : ℝ, Disco.keyboardWave t < 0) := by
  have h0 : Disco.keyboardWave 0 = 1.05 := by
    simp only [Disco.keyboardWave, Disco.f, if_true]
    rw [show (0.5 : ℝ) * π + 2 * π * 0 = π / 2 by ring, Real.sin_pi_div_two]
    norm_num
  have hhalf : Disco.keyboardWave 0.5 = -0.95 := Disco.keyboardWave_half
  refine ⟨h0, hhalf, fun t => ?_, ⟨0.5, by rw [hhalf]; norm_num⟩⟩
  have h1 := Real.neg_one_le_sin (0.5 * π + 2 * π * t)
  have h2 := Real.sin_le_one (0.5 * π + 2 * π * t)
  simp only [Disco.keyboardWave, Disco.f, if_true]
  constructor <;> nlinarith

/-- C7: `toggle` maps every gate state to its negation, so two consecutive
toggles restore the original state; `toggle` is a total function (it cannot
fail). -/
theorem Disco.toggle_flips (b : Bool) :
    Disco.toggle b = !b ∧ Disco.toggle (Disco.toggle b) = b := by
  cases b <;> simp [Disco.toggle]

/-- C1 (amended): a screen loop run for `N` ticks with the gate open calls the
brightness setter exactly `N` times, and the argument of the `i`-th call is
`int(screenWave(t_i) * maximal)` — Python truncation toward zero, not
rounding. -/
theorem Disco.screen_cadence_trunc (clock : ℕ → ℝ) (maximal : ℤ) (N : ℕ) :
    Disco.setCalls (Disco.screen_alert clock maximal N) =
      (List.range N).map fun i =>
        Disco.ScreenBrightness.set_value maximal (Disco.screenWave (clock i)) := by
  induction N with
  | zero => rfl
  | succ n ih =>
    simp only [Disco.screen_alert, Disco.setCalls, List.filterMap_append,
      List.range_succ, List.map_append]
    simp only [Disco.setCalls] at ih
    rw [ih]
    rfl

/-- C1 (counterexample): with the clock fixed at `1/12` and maximum
brightness `1000`, the single setter call of a one-tick screen-loop run
writes `738 = int(738.75)`, not `739 = round(738.75)`, so the claim's
`round` is wrong. -/
theorem Disco.screen_cadence_round_cex :
    Disco.setCalls (Disco.screen_alert (fun _ => (1 : ℝ) / 12) 1000 1) ≠
      [round (Disco.screenWave ((1 : ℝ) / 12) * 1000)] := by
  have hs : Disco.screenWave ((1 : ℝ) / 12) * 1000 = 738.75 := by
    simp only [Disco.screenWave, Disco.f, Bool.false_eq_true, if_false]
    rw [show 2 * π * ((1 : ℝ) / 12) = π / 6 by ring, Real.sin_pi_div_six]
    norm_num
  have hleft : Disco.setCalls (Disco.screen_alert (fun _ => (1 : ℝ) / 12) 1000 1) =
      [Disco.int_toward_zero (Disco.screenWave ((1 : ℝ) / 12) * 1000)] := rfl
  rw [hleft, hs, round_eq]
  have h1 : Disco.int_toward_zero (738.75 : ℝ) = 738 := by
    simp only [Disco.int_toward_zero]
    rw [if_pos (by norm_num)]
    exact Int.floor_eq_iff.mpr (by norm_num)
  have h2 : ⌊(738.75 : ℝ) + 1 / 2⌋ = 739 := Int.floor_eq_iff.mpr (by norm_num)
  rw [h1, h2]
  simp

/-- C2 (amended): within each tick of the screen and keyboard loops the
operations occur in the order clock-read (with waveform computation),
gate-wait, apply, sleep: the clock sample of a tick is taken BEFORE the gate
wait of that tick, because advancing the `for` loop's iterator reads the
clock before the body awaits the gate; the value applied after the wait is
the one computed from that pre-wait sample. -/
theorem Disco.tick_sample_before_wait (clock : ℕ → ℝ) (maximal maximum : ℤ) (i : ℕ) :
    (Disco.screen_tick clock maximal i).map Disco.Ev.kind =
      [Disco.EvKind.clockRead, Disco.EvKind.gateWait, Disco.EvKind.applyValue,
        Disco.EvKind.sleep] ∧
    (Disco.keyboard_tick clock maximum i).map Disco.Ev.kind =
      [Disco.EvKind.clockRead, Disco.EvKind.gateWait, Disco.EvKind.applyValue,
        Disco.EvKind.sleep] ∧
    (Disco.screen_tick clock maximal i).head? = some (Disco.Ev.clockRead (clock i)) ∧
    (Disco.screen_tick clock maximal i).get? 2 = some (Disco.Ev.applyValue
      (Disco.ScreenBrightness.set_value maximal (Disco.screenWave (clock i)))) :=
  ⟨rfl, rfl, rfl, rfl⟩

/-- C2 (counterexample): in a concrete screen-loop tick, the gate wait does
NOT precede the clock read — the tick's trace has the clock read at index 0
and the gate wait at index 1, refuting the claimed ordering. -/
theorem Disco.tick_wait_first_cex :
    ¬ Disco.waitBeforeSample
      ((Disco.screen_tick (fun _ => 0) 100 0).map Disco.Ev.kind) := by
  intro h
  have h10 := h 1 0 rfl rfl
  omega

/-- C10 (amended): the keyboard loop writes `int(keyboardWave(t) * maximum)`
to the adapter with no clamping, and at `t = 0.5` this value is negative for
every maximum `≥ 2` (for `maximum = 1` Python truncation toward zero yields
`int(-0.95) = 0`, which is not negative). -/
theorem Disco.keyboard_negative_write (M : ℤ) (h : 2 ≤ M) :
    Disco.setCalls (Disco.keyboard_alert (fun _ => (0.5 : ℝ)) M 1) =
      [Disco.DBusBrightnessManager.set_value M (Disco.keyboardWave 0.5)] ∧
    Disco.DBusBrightnessManager.set_value M (Disco.keyboardWave 0.5) < 0 := by
  refine ⟨rfl, ?_⟩
  have hM : (2 : ℝ) ≤ (M : ℝ) := by exact_mod_cast h
  have hv : Disco.keyboardWave 0.5 * (M : ℝ) ≤ -1.9 := by
    rw [Disco.keyboardWave_half]
    nlinarith
  simp only [Disco.DBusBrightnessManager.set_value, Disco.int_toward_zero]
  rw [if_neg (by nlinarith)]
  have hc : ⌈Disco.keyboardWave 0.5 * (M : ℝ)⌉ ≤ -1 := by
    apply Int.ceil_le.mpr
    push_cast
    linarith
  omega

/-- C10 (witness): at `maximum = 2` the keyboard loop's single write is
`int(-0.95 * 2) = -1 < 0`. -/
theorem Disco.keyboard_negative_write_witness :
    (2 : ℤ) ≤ 2 ∧
    (Disco.setCalls (Disco.keyboard_alert (fun _ => (0.5 : ℝ)) 2 1) =
      [Disco.DBusBrightnessManager.set_value 2 (Disco.keyboardWave 0.5)] ∧
     Disco.DBusBrightnessManager.set_value 2 (Disco.keyboardWave 0.5) < 0) :=
  ⟨le_refl 2, Disco.keyboard_negative_write 2 (le_refl 2)⟩

/-- C10 (counterexample): for `maximum = 1` (a positive maximum) the value
written at `t = 0.5` is `int(-0.95) = 0`, which is not negative, so the
claim's "for every positive maximum" fails. -/
theorem Disco.keyboard_negative_cex :
    (0 : ℤ) < 1 ∧
    ¬ Disco.DBusBrightnessManager.set_value 1 (Disco.keyboardWave 0.5) < 0 := by
  refine ⟨by norm_num, ?_⟩
  have hz : Disco.DBusBrightnessManager.set_value 1 (Disco.keyboardWave 0.5) = 0 := by
    simp only [Disco.DBusBrightnessManager.set_value, Disco.int_toward_zero,
      Disco.keyboardWave_half]
    rw [show (-0.95 : ℝ) * ((1 : ℤ) : ℝ) = -0.95 by push_cast; ring]
    rw [if_neg (by norm_num)]
    exact Int.ceil_eq_iff.mpr (by norm_num)
  rw [hz]
  omega

/-- C6: the audio cycle duration is `nframes / framerate` (so `1` for the
header `{frameCount = 48000, frameRate = 48000}`); every sleep in the audio
loop's trace uses that one startup-computed duration (it is never
recomputed); and under the timed model two consecutive `play` calls are
separated by at least that duration, whatever nonnegative time each gate
wait takes. -/
theorem Disco.audio_cycle_duration (nframes framerate : ℕ) (waits : ℕ → ℚ)
    (h : ∀ n, 0 ≤ waits n) (n N : ℕ) :
    Disco.audio_delay 48000 48000 = 1 ∧
    (∀ d : ℚ, Disco.AudioEv.sleep d ∈ Disco.audio_alert nframes framerate N →
      d = Disco.audio_delay nframes framerate) ∧
    Disco.audio_play_time (Disco.audio_delay nframes framerate) waits n +
        Disco.audio_delay nframes framerate ≤
      Disco.audio_play_time (Disco.audio_delay nframes framerate) waits (n + 1) := by
  refine ⟨by norm_num [Disco.audio_delay], ?_, ?_⟩
  · intro d hd
    induction N with
    | zero => simp [Disco.audio_alert] at hd
    | succ k ih =>
      simp only [Disco.audio_alert, List.mem_append] at hd
      rcases hd with hd | hd
      · exact ih hd
      · simpa using hd
  · simp only [Disco.audio_play_time]
    have := h (n + 1)
    linarith

/-- C6 (witness): with the 48000/48000 header, zero-time gate waits and the
first pair of plays, the hypotheses and the conclusion hold concretely. -/
theorem Disco.audio_cycle_duration_witness :
    (∀ n : ℕ, (0 : ℚ) ≤ 0) ∧
    (Disco.audio_delay 48000 48000 = 1 ∧
     (∀ d : ℚ, Disco.AudioEv.sleep d ∈ Disco.audio_alert 48000 48000 1 →
       d = Disco.audio_delay 48000 48000) ∧
     Disco.audio_play_time (Disco.audio_delay 48000 48000) (fun _ => 0) 0 +
         Disco.audio_delay 48000 48000 ≤
       Disco.audio_play_time (Disco.audio_delay 48000 48000) (fun _ => 0) (0 + 1)) :=
  ⟨fun _ => le_refl 0,
   Disco.audio_cycle_duration 48000 48000 (fun _ => 0) (fun _ => le_refl 0) 0 1⟩

/-- C8: termination of the gathered loops by cancellation (the shutdown
trigger) makes the process exit with status 0 — cancellation is caught and
not surfaced as an error — while an unrecovered fatal error from any loop
makes the process exit non-zero. -/
theorem Disco.main_exit_codes :
    Disco.main_exit_status Disco.LoopTermination.cancelledError = 0 ∧
    ∀ e : ℕ, Disco.main_exit_status (Disco.LoopTermination.fatal e) ≠ 0 :=
  ⟨rfl, fun _ => by simp [Disco.main_exit_status]⟩

/-- C9: after the setup steps of `main` that precede `asyncio.gather` (the
step that starts the alert loops), the gate is open, so a loop's first
`wait()` returns immediately; a single intervening toggle would close it. -/
theorem Disco.gate_initially_open :
    Disco.gateAfter (Disco.main_steps.take 6) = true ∧
    Disco.main_steps.get? 6 = some Disco.MainStep.gatherLoops ∧
    Disco.toggle (Disco.gateAfter (Disco.main_steps.take 6)) = false := by
  decide
